import Mathlib

/-
Shallow embedding of the tinyland-admin-user-service record store and
credential engine (src/service.ts, src/config.ts, src/types.ts).

Modeling conventions:
* A JavaScript field that may be absent is an `Option`; for the nullable
  fields (`totpSecret`, `lastLogin`) `none` covers both `null` and absent,
  which is faithful to every use the service makes of them (truthiness
  tests and `!!`).
* JavaScript truthiness on strings / booleans is `strTruthy` / `boolTruthy`.
* The injected collaborators of config.ts (bcrypt hash/compare with the
  configured salt rounds folded in, TOTP generators, temp-password
  generator, uuid, Date.now, and whether the injected writeFile succeeds)
  are the fields of `Env`, fixed per call.
* `Map<string, AdminUser>` keyed by id with insertion order is a
  `List AdminUser`; `Map.set` is `mapSet` (replace in place, else append).
* Operations return the `Except` result together with the in-memory map
  after the call, so a thrown persistence failure still exposes the
  already-applied mutation, exactly as the class field `this.users` does.
* The persisted file is modeled at the parsed-JSON level (`FileData`):
  `JSON.parse ∘ JSON.stringify` is the identity on record values, so
  `saveUsers` produces the object-wrapped record list and `loadUsers`
  consumes either accepted shape.
-/

namespace AdminUserService

/-- JavaScript truthiness of an optional string: absent, null and the
empty string are falsy. -/
def strTruthy : Option String → Bool
  | none => false
  | some s => !(s == "")

/-- JavaScript truthiness of an optional boolean: absent is falsy. -/
def boolTruthy : Option Bool → Bool
  | none => false
  | some b => b

/-- Admin user record (interface AdminUser of types.ts), restricted to the
fields the service reads and writes. -/
structure AdminUser where
  id : String
  username : Option String := none
  handle : Option String := none
  displayName : Option String := none
  password : Option String := none
  passwordHash : Option String := none
  role : Option String := none
  isActive : Option Bool := none
  active : Option Bool := none
  createdAt : Option String := none
  updatedAt : Option String := none
  lastLogin : Option String := none
  totpSecret : Option String := none
  totpEnabled : Option Bool := none
  firstLogin : Option Bool := none
  deriving Repr, DecidableEq

/-- Injected collaborators and per-call ambient values (config.ts plus
bcrypt, uuid and the clock), with `writeOk` modeling whether the injected
writeFile succeeds. -/
structure Env where
  hash : String → String
  compare : String → String → Bool
  genTempPassword : Nat → String
  genTOTPSecret : String
  genTOTPUri : String → String → String → String
  genTOTPQRCode : String → String
  freshId : String
  now : String
  writeOk : Bool

/-- interface CreateUserData of types.ts. -/
structure CreateUserData where
  username : String
  password : Option String := none
  role : String
  displayName : Option String := none
  generateCredentials : Option Bool := none
  totpSecret : Option String := none
  firstLogin : Option Bool := none
  deriving Repr, DecidableEq

/-- interface CreateUserResult of types.ts: the created record (password
stripped) plus the optional credential artifacts. -/
structure CreateUserResult where
  user : AdminUser
  tempPassword : Option String := none
  qrCode : Option String := none
  totpUri : Option String := none
  deriving Repr, DecidableEq

/-- The argument of updateUser (TypeScript Partial of AdminUser): a field
wrapped in one more Option is present exactly when the outer layer is
`some`. -/
structure UpdateData where
  id : Option String := none
  username : Option String := none
  handle : Option String := none
  displayName : Option String := none
  password : Option String := none
  passwordHash : Option String := none
  role : Option String := none
  isActive : Option Bool := none
  active : Option Bool := none
  createdAt : Option String := none
  updatedAt : Option String := none
  lastLogin : Option (Option String) := none
  totpSecret : Option (Option String) := none
  totpEnabled : Option Bool := none
  firstLogin : Option Bool := none
  deriving Repr, DecidableEq

/-- Errors thrown by the service: the duplicate-username business error of
createUser/updateUser and the persistence error thrown by saveUsers. -/
inductive UserError where
  | duplicateUsername
  | persistenceFailure
  deriving Repr, DecidableEq

/-- The in-memory `Map<string, AdminUser>`: a list in insertion order,
keyed by `id`. -/
abbrev Store := List AdminUser

/-- The ids held by the store, in order. -/
def ids (s : Store) : List String := s.map AdminUser.id

/-- JavaScript `Map.set` keyed by `u.id`: replace in place when the key is
present, append otherwise. -/
def mapSet (s : Store) (u : AdminUser) : Store :=
  if s.any (fun v => v.id == u.id) then
    s.map (fun v => if v.id == u.id then u else v)
  else s ++ [u]

/-- JavaScript `Map.get`. -/
def getById (s : Store) (i : String) : Option AdminUser :=
  s.find? (fun u => u.id == i)

/-- The copy returned to callers: spread with `password: undefined`. -/
def redact (u : AdminUser) : AdminUser := { u with password := none }

/-- Legacy-field normalization applied to each parsed record in loadUsers:
copy `passwordHash` to `password` when the latter is falsy, and `active`
to `isActive` when the latter is absent. -/
def normalizeUser (u : AdminUser) : AdminUser :=
  let u1 :=
    if strTruthy u.passwordHash && !(strTruthy u.password) then
      { u with password := u.passwordHash }
    else u
  if u1.active.isSome && u1.isActive.isNone then
    { u1 with isActive := u1.active }
  else u1

/-- Parsed content of the backing file: a read/parse failure, a bare array
of records, or an object whose `users` property is the array (`none`
models an absent or falsy `users` property). -/
inductive FileData where
  | missing
  | arr (users : List AdminUser)
  | obj (users : Option (List AdminUser))
  deriving Repr, DecidableEq

/-- The record array loadUsers extracts from the parsed file, or `none`
when reading/parsing failed. -/
def parsedUsers : FileData → Option (List AdminUser)
  | .missing => none
  | .arr us => some us
  | .obj us => some (us.getD [])

/-- loadUsers: full replace of the in-memory map with the normalized
parsed records keyed by id; any failure resets the map to empty. -/
def loadUsers (fd : FileData) : Store :=
  match parsedUsers fd with
  | none => []
  | some us => us.foldl (fun s u => mapSet s (normalizeUser u)) []

/-- saveUsers: the file content written on a successful save, namely the
object-wrapped array of the map's values in insertion order. -/
def saveUsers (s : Store) : FileData := .obj (some s)

/-- The temporary password createUser generates (12-character request) when
generateCredentials is truthy or the supplied password is falsy. -/
def createTempPassword (env : Env) (data : CreateUserData) : Option String :=
  if boolTruthy data.generateCredentials || !(strTruthy data.password) then
    some (env.genTempPassword 12)
  else none

/-- The plaintext createUser hashes: `data.password || tempPassword`. -/
def createPasswordToHash (env : Env) (data : CreateUserData) : String :=
  if strTruthy data.password then data.password.getD ""
  else (createTempPassword env data).getD ""

/-- The TOTP secret createUser establishes: the supplied secret when
truthy, else the generated one when credentials are requested, else null. -/
def createTotpSecret (env : Env) (data : CreateUserData) : Option String :=
  if strTruthy data.totpSecret || boolTruthy data.generateCredentials then
    (if strTruthy data.totpSecret then data.totpSecret
     else some env.genTOTPSecret)
  else none

/-- The enrollment URI derived from the established secret, if any. -/
def createTotpUri (env : Env) (data : CreateUserData) : Option String :=
  match createTotpSecret env data with
  | some sec => some (env.genTOTPUri sec "Tinyland.dev" data.username)
  | none => none

/-- The enrollment QR artifact derived from the URI, if any. -/
def createQrCode (env : Env) (data : CreateUserData) : Option String :=
  match createTotpUri env data with
  | some uri => some (env.genTOTPQRCode uri)
  | none => none

/-- The record createUser inserts into the map. -/
def createdUser (env : Env) (data : CreateUserData) : AdminUser :=
  { id := env.freshId
    username := some data.username
    password := some (env.hash (createPasswordToHash env data))
    role := some data.role
    displayName :=
      some (if strTruthy data.displayName then data.displayName.getD ""
            else data.username)
    isActive := some true
    createdAt := some env.now
    updatedAt := some env.now
    lastLogin := none
    totpSecret := createTotpSecret env data
    totpEnabled := some (strTruthy (createTotpSecret env data))
    firstLogin :=
      some (match data.firstLogin with
            | some b => b
            | none => !(strTruthy data.password)) }

/-- createUser of service.ts, acting on the freshly loaded map. -/
def createUser (env : Env) (data : CreateUserData) (s : Store) :
    Except UserError CreateUserResult × Store :=
  if s.any (fun u => u.username == some data.username) then
    (.error .duplicateUsername, s)
  else
    let newUser := createdUser env data
    let s2 := mapSet s newUser
    let result : CreateUserResult :=
      { user := redact newUser
        tempPassword := createTempPassword env data
        qrCode := createQrCode env data
        totpUri := createTotpUri env data }
    if env.writeOk then (.ok result, s2) else (.error .persistenceFailure, s2)

/-- The spread merge of updateUser after `id`, `password` and `createdAt`
were deleted from the partial data, with `updatedAt` refreshed. -/
def applyUpdate (u : AdminUser) (d : UpdateData) (now : String) : AdminUser :=
  { id := u.id
    username := d.username.or u.username
    handle := d.handle.or u.handle
    displayName := d.displayName.or u.displayName
    password := u.password
    passwordHash := d.passwordHash.or u.passwordHash
    role := d.role.or u.role
    isActive := d.isActive.or u.isActive
    active := d.active.or u.active
    createdAt := u.createdAt
    updatedAt := some now
    lastLogin := d.lastLogin.getD u.lastLogin
    totpSecret := d.totpSecret.getD u.totpSecret
    totpEnabled := d.totpEnabled.or u.totpEnabled
    firstLogin := d.firstLogin.or u.firstLogin }

/-- updateUser of service.ts. -/
def updateUser (env : Env) (i : String) (d : UpdateData) (s : Store) :
    Except UserError (Option AdminUser) × Store :=
  match getById s i with
  | none => (.ok none, s)
  | some user =>
    if strTruthy d.username && !(d.username == user.username)
        && s.any (fun v => v.username == d.username) then
      (.error .duplicateUsername, s)
    else
      let updated := applyUpdate user d env.now
      let s2 := mapSet s updated
      if env.writeOk then (.ok (some (redact updated)), s2)
      else (.error .persistenceFailure, s2)

/-- updatePassword of service.ts. -/
def updatePassword (env : Env) (i : String) (newPassword : String)
    (s : Store) : Except UserError Bool × Store :=
  match getById s i with
  | none => (.ok false, s)
  | some user =>
    let u2 := { user with password := some (env.hash newPassword),
                          updatedAt := some env.now }
    let s2 := mapSet s u2
    if env.writeOk then (.ok true, s2) else (.error .persistenceFailure, s2)

/-- deleteUser of service.ts: no write happens on a miss. -/
def deleteUser (env : Env) (i : String) (s : Store) :
    Except UserError Bool × Store :=
  if s.any (fun u => u.id == i) then
    let s2 := s.filter (fun u => !(u.id == i))
    if env.writeOk then (.ok true, s2) else (.error .persistenceFailure, s2)
  else (.ok false, s)

/-- toggleUserStatus of service.ts: `isActive = !isActive` under JavaScript
negation, so an absent flag negates to true. -/
def toggleUserStatus (env : Env) (i : String) (s : Store) :
    Except UserError (Option AdminUser) × Store :=
  match getById s i with
  | none => (.ok none, s)
  | some user =>
    let u2 := { user with isActive := some (!(boolTruthy user.isActive)),
                          updatedAt := some env.now }
    let s2 := mapSet s u2
    if env.writeOk then (.ok (some (redact u2)), s2)
    else (.error .persistenceFailure, s2)

/-- verifyPassword of service.ts. -/
def verifyPassword (env : Env) (handle pw : String) (s : Store) :
    Except UserError (Option AdminUser) × Store :=
  match s.find? (fun u => u.handle == some handle) with
  | none => (.ok none, s)
  | some user =>
    if !(boolTruthy user.isActive) then (.ok none, s)
    else if !(strTruthy user.password) then (.ok none, s)
    else if !(env.compare pw (user.password.getD "")) then (.ok none, s)
    else
      let u2 := { user with lastLogin := some env.now }
      let s2 := mapSet s u2
      if env.writeOk then (.ok (some (redact u2)), s2)
      else (.error .persistenceFailure, s2)

/-- getTotpSecret of service.ts: `user?.totpSecret || null`, so an empty
secret also collapses to null. -/
def getTotpSecret (s : Store) (i : String) : Option String :=
  match getById s i with
  | none => none
  | some u => if strTruthy u.totpSecret then u.totpSecret else none

/-- enableTotp of service.ts: sets secret and flag together and clears a
truthy firstLogin. -/
def enableTotp (env : Env) (i : String) (secret : String) (s : Store) :
    Except UserError Bool × Store :=
  match getById s i with
  | none => (.ok false, s)
  | some user =>
    let u2 := { user with
                totpSecret := some secret
                totpEnabled := some true
                updatedAt := some env.now
                firstLogin :=
                  if boolTruthy user.firstLogin then some false
                  else user.firstLogin }
    let s2 := mapSet s u2
    if env.writeOk then (.ok true, s2) else (.error .persistenceFailure, s2)

/-- disableTotp of service.ts: clears secret and flag together. -/
def disableTotp (env : Env) (i : String) (s : Store) :
    Except UserError Bool × Store :=
  match getById s i with
  | none => (.ok false, s)
  | some user =>
    let u2 := { user with
                totpSecret := none
                totpEnabled := some false
                updatedAt := some env.now }
    let s2 := mapSet s u2
    if env.writeOk then (.ok true, s2) else (.error .persistenceFailure, s2)

/-- needsFirstLoginSetup of service.ts: `user.firstLogin === true`. -/
def needsFirstLoginSetup (s : Store) (i : String) : Bool :=
  match getById s i with
  | none => false
  | some u => u.firstLogin == some true

/-- getAllUsers of service.ts: every record with the password stripped. -/
def getAllUsers (s : Store) : List AdminUser := s.map redact

/-- getUserById of service.ts: the raw record, hash retained. -/
def getUserById (s : Store) (i : String) : Option AdminUser := getById s i

/-- getUserByHandle of service.ts: first match in iteration order, hash
stripped. -/
def getUserByHandle (s : Store) (handle : String) : Option AdminUser :=
  (s.find? (fun u => u.handle == some handle)).map redact

/-- A concrete environment used to instantiate theorems: hashing prepends
a tag, comparison inverts it, the temp-password generator returns a string
of the requested length. -/
def testEnv : Env :=
  { hash := fun p => "h_" ++ p
    compare := fun p h => h == "h_" ++ p
    genTempPassword := fun n => String.mk (List.replicate n 'T')
    genTOTPSecret := "mock-secret"
    genTOTPUri := fun sec iss acc => iss ++ ":" ++ acc ++ ":" ++ sec
    genTOTPQRCode := fun uri => "qr_" ++ uri
    freshId := "id-1"
    now := "t1"
    writeOk := true }

/-- A concrete stored record mirroring the test suite's sample user. -/
def alice : AdminUser :=
  { id := "user-1", username := some "alice", handle := some "alice_h",
    displayName := some "Alice", password := some "h_secret123",
    role := some "admin", isActive := some true,
    createdAt := some "t0", updatedAt := some "t0", lastLogin := none,
    totpSecret := none, totpEnabled := some false, firstLogin := some false }

/-- A second concrete stored record. -/
def bob : AdminUser :=
  { id := "user-2", username := some "bob", handle := some "bob_h",
    displayName := some "Bob", password := some "h_password456",
    role := some "super_admin", isActive := some true,
    createdAt := some "t0", updatedAt := some "t0", lastLogin := none,
    totpSecret := none, totpEnabled := some false, firstLogin := some false }

theorem mem_mapSet {s : Store} {u v : AdminUser} (h : v ∈ mapSet s u) :
    v ∈ s ∨ v = u := by
  unfold mapSet at h
  split at h
  · obtain ⟨w, hw, hv⟩ := List.mem_map.mp h
    by_cases hid : (w.id == u.id) = true
    · right
      simp only [hid, if_true] at hv
      exact hv.symm
    · left
      simp only [hid, if_false] at hv
      exact hv ▸ hw
  · rcases List.mem_append.mp h with h1 | h1
    · exact Or.inl h1
    · exact Or.inr (by simpa using h1)

theorem mapSet_append {s : Store} {u : AdminUser} (h : u.id ∉ ids s) :
    mapSet s u = s ++ [u] := by
  unfold mapSet
  rw [if_neg]
  intro hc
  obtain ⟨v, hv, he⟩ := List.any_eq_true.mp hc
  exact h (by
    simp only [ids, List.mem_map]
    exact ⟨v, hv, by simpa using he⟩)

theorem ids_mapSet_of_mem {s : Store} {u : AdminUser}
    (h : (s.any (fun v => v.id == u.id)) = true) :
    ids (mapSet s u) = ids s := by
  unfold mapSet
  rw [if_pos h]
  simp only [ids, List.map_map]
  apply List.map_congr_left
  intro v _
  simp only [Function.comp]
  split
  · next hid => exact (eq_of_beq hid).symm
  · rfl

theorem ids_mapSet_of_not_mem {s : Store} {u : AdminUser}
    (h : u.id ∉ ids s) : ids (mapSet s u) = ids s ++ [u.id] := by
  rw [mapSet_append h]
  simp [ids]

theorem strTruthy_eq_true {o : Option String} :
    strTruthy o = true ↔ ∃ s, o = some s ∧ s ≠ "" := by
  cases o <;> simp [strTruthy]

theorem mem_foldl_mapSet {f : AdminUser → AdminUser} {l : List AdminUser}
    {init : Store} {v : AdminUser}
    (h : v ∈ l.foldl (fun s u => mapSet s (f u)) init) :
    v ∈ init ∨ ∃ u ∈ l, v = f u := by
  induction l generalizing init with
  | nil => exact Or.inl h
  | cons a as ih =>
    simp only [List.foldl_cons] at h
    rcases ih h with h1 | ⟨u, hu, hv⟩
    · rcases mem_mapSet h1 with h2 | h2
      · exact Or.inl h2
      · exact Or.inr ⟨a, List.mem_cons_self a as, h2⟩
    · exact Or.inr ⟨u, List.mem_cons_of_mem a hu, hv⟩

/-- The redundant-field invariant of the spec: the enabled flag is set
exactly when a secret is stored. -/
def totpConsistent (u : AdminUser) : Prop :=
  u.totpEnabled = some true ↔ u.totpSecret ≠ none

instance : DecidablePred totpConsistent := fun u => by
  unfold totpConsistent; infer_instance

/-- The invariant lifted to the whole store. -/
def totpInv (s : Store) : Prop := ∀ u ∈ s, totpConsistent u

instance (s : Store) : Decidable (totpInv s) := by
  unfold totpInv; exact List.decidableBAll _ s

theorem createTotpSecret_ne_empty {env : Env} {data : CreateUserData}
    (hg : env.genTOTPSecret ≠ "") {sec : String}
    (h : createTotpSecret env data = some sec) : sec ≠ "" := by
  unfold createTotpSecret at h
  split at h
  · split at h
    · next ht =>
      obtain ⟨s1, hs1, hne⟩ := strTruthy_eq_true.mp ht
      rw [hs1, Option.some.injEq] at h
      exact h ▸ hne
    · rw [Option.some.injEq] at h
      exact h ▸ hg
  · exact Option.noConfusion h

theorem totpConsistent_createdUser {env : Env} {data : CreateUserData}
    (hg : env.genTOTPSecret ≠ "") : totpConsistent (createdUser env data) := by
  unfold totpConsistent
  cases hts : createTotpSecret env data with
  | none => simp [createdUser, hts, strTruthy]
  | some sec =>
    have hne := createTotpSecret_ne_empty hg hts
    simp [createdUser, hts, strTruthy, hne]

theorem createUser_snd (env : Env) (data : CreateUserData) (s : Store) :
    (createUser env data s).2 =
      if s.any (fun u => u.username == some data.username) then s
      else mapSet s (createdUser env data) := by
  unfold createUser
  split
  · rfl
  · dsimp only
    split <;> rfl

theorem updateUser_snd (env : Env) (i : String) (d : UpdateData) (s : Store) :
    (updateUser env i d s).2 =
      match getById s i with
      | none => s
      | some user =>
        if strTruthy d.username && !(d.username == user.username)
            && s.any (fun v => v.username == d.username) then s
        else mapSet s (applyUpdate user d env.now) := by
  unfold updateUser
  cases getById s i with
  | none => rfl
  | some user =>
    dsimp only
    split
    · rfl
    · split <;> rfl

theorem enableTotp_snd (env : Env) (i secret : String) (s : Store) :
    (enableTotp env i secret s).2 =
      match getById s i with
      | none => s
      | some user => mapSet s { user with
          totpSecret := some secret
          totpEnabled := some true
          updatedAt := some env.now
          firstLogin := if boolTruthy user.firstLogin then some false
                        else user.firstLogin } := by
  unfold enableTotp
  cases getById s i with
  | none => rfl
  | some user =>
    dsimp only
    split <;> rfl

theorem disableTotp_snd (env : Env) (i : String) (s : Store) :
    (disableTotp env i s).2 =
      match getById s i with
      | none => s
      | some user => mapSet s { user with
          totpSecret := none
          totpEnabled := some false
          updatedAt := some env.now } := by
  unfold disableTotp
  cases getById s i with
  | none => rfl
  | some user =>
    dsimp only
    split <;> rfl

/-- One operation of the claim's sequence, with its per-call environment. -/
inductive TotpOp where
  | create (env : Env) (data : CreateUserData)
  | update (env : Env) (i : String) (d : UpdateData)
  | enable (env : Env) (i : String) (secret : String)
  | disable (env : Env) (i : String)

/-- The store after one operation (the in-memory map is kept even when the
operation throws). -/
def runTotpOp (s : Store) : TotpOp → Store
  | .create env data => (createUser env data s).2
  | .update env i d => (updateUser env i d s).2
  | .enable env i secret => (enableTotp env i secret s).2
  | .disable env i => (disableTotp env i s).2

/-- The side conditions the amended claim needs: the injected secret
generator never returns the empty string, and updates do not write the
TOTP fields directly. -/
def goodTotpOp : TotpOp → Prop
  | .create env _ => env.genTOTPSecret ≠ ""
  | .update _ _ d => d.totpEnabled = none ∧ d.totpSecret = none
  | .enable _ _ _ => True
  | .disable _ _ => True

theorem normalizeUser_totpSecret (u : AdminUser) :
    (normalizeUser u).totpSecret = u.totpSecret := by
  unfold normalizeUser
  dsimp only
  split <;> split <;> rfl

theorem normalizeUser_totpEnabled (u : AdminUser) :
    (normalizeUser u).totpEnabled = u.totpEnabled := by
  unfold normalizeUser
  dsimp only
  split <;> split <;> rfl

theorem totpInv_runTotpOp {s : Store} {op : TotpOp}
    (hg : goodTotpOp op) (h : totpInv s) : totpInv (runTotpOp s op) := by
  cases op with
  | create env data =>
    intro v hv
    rw [runTotpOp, createUser_snd] at hv
    split at hv
    · exact h v hv
    · rcases mem_mapSet hv with h1 | rfl
      · exact h v h1
      · exact totpConsistent_createdUser hg
  | update env i d =>
    intro v hv
    cases hu : getById s i with
    | none =>
      simp only [runTotpOp, updateUser_snd, hu] at hv
      exact h v hv
    | some user =>
      simp only [runTotpOp, updateUser_snd, hu] at hv
      split at hv
      · exact h v hv
      · rcases mem_mapSet hv with h1 | rfl
        · exact h v h1
        · have huser := h user (List.mem_of_find?_eq_some hu)
          unfold totpConsistent applyUpdate at *
          rw [hg.1, hg.2]
          simpa using huser
  | enable env i secret =>
    intro v hv
    cases hu : getById s i with
    | none =>
      simp only [runTotpOp, enableTotp_snd, hu] at hv
      exact h v hv
    | some user =>
      simp only [runTotpOp, enableTotp_snd, hu] at hv
      rcases mem_mapSet hv with h1 | rfl
      · exact h v h1
      · unfold totpConsistent
        simp
  | disable env i =>
    intro v hv
    cases hu : getById s i with
    | none =>
      simp only [runTotpOp, disableTotp_snd, hu] at hv
      exact h v hv
    | some user =>
      simp only [runTotpOp, disableTotp_snd, hu] at hv
      rcases mem_mapSet hv with h1 | rfl
      · exact h v h1
      · unfold totpConsistent
        simp

/-- A legacy record whose flag and secret disagree, as a persisted file
could contain it. -/
def badTotpRecord : AdminUser :=
  { id := "user-1", username := some "legacy",
    totpEnabled := some true, totpSecret := none }

/-- C1 counterexample: the claim fails on the code in three ways. A file
record with totpEnabled true and no secret is loaded verbatim (loadUsers
does not restore the biconditional); updateUser can set totpEnabled
directly and break it; and createUser with a secret generator returning
the empty string stores a non-null secret with totpEnabled false. -/
theorem C1_counterexample :
    loadUsers (.obj (some [badTotpRecord])) = [badTotpRecord]
    ∧ ¬ totpConsistent badTotpRecord
    ∧ ¬ totpInv (updateUser testEnv "user-1"
          { totpEnabled := some true } [alice]).2
    ∧ ¬ totpInv (createUser { testEnv with genTOTPSecret := "" }
          { username := "carol", role := "admin",
            generateCredentials := some true } []).2 := by
  refine ⟨rfl, by decide, by decide, by decide⟩

/-- C1 (amended): totpEnabled is some true iff totpSecret is non-null, for
every record, after any sequence of create/enableTotp/disableTotp/
updateUser operations in which the injected TOTP secret generator never
returns the empty string and updates never write the totpEnabled or
totpSecret fields directly, starting from a store satisfying the
invariant; and loading persisted records that satisfy the biconditional
yields a store satisfying it (the store preserves but does not restore
this consistency on load). -/
theorem C1_totp_consistency_amended
    (s : Store) (ops : List TotpOp)
    (hs : totpInv s) (hops : ∀ op ∈ ops, goodTotpOp op) :
    totpInv (ops.foldl runTotpOp s)
    ∧ ∀ records : List AdminUser,
        (∀ u ∈ records, totpConsistent u) →
        totpInv (loadUsers (FileData.obj (some records))) := by
  constructor
  · induction ops generalizing s with
    | nil => exact hs
    | cons op rest ih =>
      simp only [List.foldl_cons]
      exact ih _ (totpInv_runTotpOp (hops op (List.mem_cons_self _ _)) hs)
        (fun o ho => hops o (List.mem_cons_of_mem _ ho))
  · intro records hrec v hv
    have hload : loadUsers (FileData.obj (some records)) =
        records.foldl (fun t u => mapSet t (normalizeUser u)) [] := rfl
    rw [hload] at hv
    rcases mem_foldl_mapSet hv with h1 | ⟨u, hu, rfl⟩
    · exact absurd h1 (List.not_mem_nil v)
    · have hc := hrec u hu
      unfold totpConsistent at *
      rw [normalizeUser_totpSecret, normalizeUser_totpEnabled]
      exact hc

/-- Witness for the amended C1 theorem at a concrete store and op list. -/
theorem C1_totp_consistency_amended_witness :
    totpInv ([TotpOp.enable testEnv "user-1" "sec",
              TotpOp.disable testEnv "user-2"].foldl runTotpOp [alice, bob])
    ∧ ∀ records : List AdminUser,
        (∀ u ∈ records, totpConsistent u) →
        totpInv (loadUsers (FileData.obj (some records))) :=
  C1_totp_consistency_amended [alice, bob]
    [TotpOp.enable testEnv "user-1" "sec", TotpOp.disable testEnv "user-2"]
    (by decide)
    (by intro op hop
        rcases List.mem_cons.mp hop with rfl | hop2
        · trivial
        · rcases List.mem_cons.mp hop2 with rfl | hop3
          · trivial
          · exact absurd hop3 (List.not_mem_nil op))

/-- Creation data supplying both an explicit password and a request for
generated credentials. -/
def carolData : CreateUserData :=
  { username := "carol", password := some "pw", role := "admin",
    generateCredentials := some true }

/-- C2 counterexample: createUser with password "pw" supplied and
generateCredentials true generates and returns a 12-character temporary
password, yet stores the hash of "pw" rather than the hash of the
temporary password, refuting the claim's clause that credential-generation
requests store the hash of the generated temporary password. -/
theorem C2_counterexample :
    ((createUser testEnv carolData []).1.toOption.map
        CreateUserResult.tempPassword = some (some "TTTTTTTTTTTT"))
    ∧ testEnv.genTempPassword 12 = "TTTTTTTTTTTT"
    ∧ ((createUser testEnv carolData []).2.map AdminUser.password
        = [some (testEnv.hash "pw")])
    ∧ ((createUser testEnv carolData []).2.map AdminUser.password
        ≠ [some (testEnv.hash (testEnv.genTempPassword 12))]) := by
  decide

/-- C2 (amended): on a non-colliding createUser with a successful write,
the result is the created record (hash stripped) with the credential
artifacts, and: with a falsy password the generator is invoked with
length 12, its output is returned as the temporary password and its hash
is stored; with a truthy password and generateCredentials requested the
temporary password is still generated and returned but the stored hash is
the hash of the supplied password; with a truthy password and no
credential-generation request no temporary password is produced and the
supplied password's hash is stored. -/
theorem C2_credential_issuance (env : Env) (data : CreateUserData)
    (s : Store)
    (hdup : s.any (fun u => u.username == some data.username) = false)
    (hw : env.writeOk = true) :
    (createUser env data s).1 =
      .ok { user := redact (createdUser env data)
            tempPassword := createTempPassword env data
            qrCode := createQrCode env data
            totpUri := createTotpUri env data }
    ∧ (createUser env data s).2 = mapSet s (createdUser env data)
    ∧ (strTruthy data.password = false →
        createTempPassword env data = some (env.genTempPassword 12)
        ∧ (createdUser env data).password =
            some (env.hash (env.genTempPassword 12)))
    ∧ (strTruthy data.password = true →
        boolTruthy data.generateCredentials = true →
        createTempPassword env data = some (env.genTempPassword 12)
        ∧ (createdUser env data).password =
            some (env.hash (data.password.getD "")))
    ∧ (strTruthy data.password = true →
        boolTruthy data.generateCredentials = false →
        createTempPassword env data = none
        ∧ (createdUser env data).password =
            some (env.hash (data.password.getD ""))) := by
  refine ⟨?_, ?_, ?_, ?_, ?_⟩
  · unfold createUser
    rw [if_neg (by simp [hdup]), if_pos hw]
  · unfold createUser
    rw [if_neg (by simp [hdup])]
    dsimp only
    rw [if_pos hw]
  · intro hp
    constructor
    · unfold createTempPassword
      rw [hp]
      simp
    · unfold createdUser createPasswordToHash createTempPassword
      rw [hp]
      simp
  · intro hp hg
    constructor
    · unfold createTempPassword
      rw [hp, hg]
      simp
    · unfold createdUser createPasswordToHash
      rw [hp]
      simp
  · intro hp hg
    constructor
    · unfold createTempPassword
      rw [hp, hg]
      simp
    · unfold createdUser createPasswordToHash
      rw [hp]
      simp

/-- Witness for the amended C2 theorem at the concrete inputs of the
counterexample (carol, password supplied, credentials requested). -/
theorem C2_credential_issuance_witness :
    (createUser testEnv carolData []).1 =
      .ok { user := redact (createdUser testEnv carolData)
            tempPassword := createTempPassword testEnv carolData
            qrCode := createQrCode testEnv carolData
            totpUri := createTotpUri testEnv carolData }
    ∧ (createUser testEnv carolData []).2 =
        mapSet [] (createdUser testEnv carolData)
    ∧ (strTruthy carolData.password = false →
        createTempPassword testEnv carolData =
          some (testEnv.genTempPassword 12)
        ∧ (createdUser testEnv carolData).password =
            some (testEnv.hash (testEnv.genTempPassword 12)))
    ∧ (strTruthy carolData.password = true →
        boolTruthy carolData.generateCredentials = true →
        createTempPassword testEnv carolData =
          some (testEnv.genTempPassword 12)
        ∧ (createdUser testEnv carolData).password =
            some (testEnv.hash (carolData.password.getD "")))
    ∧ (strTruthy carolData.password = true →
        boolTruthy carolData.generateCredentials = false →
        createTempPassword testEnv carolData = none
        ∧ (createdUser testEnv carolData).password =
            some (testEnv.hash (carolData.password.getD ""))) :=
  C2_credential_issuance testEnv carolData [] rfl rfl

theorem createUser_fst (env : Env) (data : CreateUserData) (s : Store) :
    (createUser env data s).1 =
      if s.any (fun u => u.username == some data.username) then
        .error .duplicateUsername
      else if env.writeOk then
        .ok { user := redact (createdUser env data)
              tempPassword := createTempPassword env data
              qrCode := createQrCode env data
              totpUri := createTotpUri env data }
      else .error .persistenceFailure := by
  unfold createUser
  split
  · rfl
  · dsimp only
    split <;> rfl

theorem updateUser_fst (env : Env) (i : String) (d : UpdateData)
    (s : Store) :
    (updateUser env i d s).1 =
      match getById s i with
      | none => .ok none
      | some user =>
        if strTruthy d.username && !(d.username == user.username)
            && s.any (fun v => v.username == d.username) then
          .error .duplicateUsername
        else if env.writeOk then
          .ok (some (redact (applyUpdate user d env.now)))
        else .error .persistenceFailure := by
  unfold updateUser
  cases getById s i with
  | none => rfl
  | some user =>
    dsimp only
    split
    · rfl
    · split <;> rfl

theorem updatePassword_fst (env : Env) (i newPassword : String)
    (s : Store) :
    (updatePassword env i newPassword s).1 =
      match getById s i with
      | none => .ok false
      | some _ =>
        if env.writeOk then .ok true else .error .persistenceFailure := by
  unfold updatePassword
  cases getById s i with
  | none => rfl
  | some user => dsimp only; split <;> rfl

theorem updatePassword_snd (env : Env) (i newPassword : String)
    (s : Store) :
    (updatePassword env i newPassword s).2 =
      match getById s i with
      | none => s
      | some user => mapSet s { user with
          password := some (env.hash newPassword)
          updatedAt := some env.now } := by
  unfold updatePassword
  cases getById s i with
  | none => rfl
  | some user => dsimp only; split <;> rfl

theorem deleteUser_fst (env : Env) (i : String) (s : Store) :
    (deleteUser env i s).1 =
      if s.any (fun u => u.id == i) then
        (if env.writeOk then .ok true else .error .persistenceFailure)
      else .ok false := by
  unfold deleteUser
  split
  · dsimp only; split <;> rfl
  · rfl

theorem deleteUser_snd (env : Env) (i : String) (s : Store) :
    (deleteUser env i s).2 =
      if s.any (fun u => u.id == i) then
        s.filter (fun u => !(u.id == i))
      else s := by
  unfold deleteUser
  split
  · dsimp only; split <;> rfl
  · rfl

theorem toggleUserStatus_fst (env : Env) (i : String) (s : Store) :
    (toggleUserStatus env i s).1 =
      match getById s i with
      | none => .ok none
      | some user =>
        if env.writeOk then
          .ok (some (redact { user with
            isActive := some (!(boolTruthy user.isActive))
            updatedAt := some env.now }))
        else .error .persistenceFailure := by
  unfold toggleUserStatus
  cases getById s i with
  | none => rfl
  | some user => dsimp only; split <;> rfl

theorem toggleUserStatus_snd (env : Env) (i : String) (s : Store) :
    (toggleUserStatus env i s).2 =
      match getById s i with
      | none => s
      | some user => mapSet s { user with
          isActive := some (!(boolTruthy user.isActive))
          updatedAt := some env.now } := by
  unfold toggleUserStatus
  cases getById s i with
  | none => rfl
  | some user => dsimp only; split <;> rfl

theorem verifyPassword_fst (env : Env) (handle pw : String) (s : Store) :
    (verifyPassword env handle pw s).1 =
      match s.find? (fun u => u.handle == some handle) with
      | none => .ok none
      | some user =>
        if !(boolTruthy user.isActive) then .ok none
        else if !(strTruthy user.password) then .ok none
        else if !(env.compare pw (user.password.getD "")) then .ok none
        else if env.writeOk then
          .ok (some (redact { user with lastLogin := some env.now }))
        else .error .persistenceFailure := by
  unfold verifyPassword
  cases s.find? (fun u => u.handle == some handle) with
  | none => rfl
  | some user =>
    dsimp only
    split
    · rfl
    · split
      · rfl
      · split
        · rfl
        · split <;> rfl

theorem verifyPassword_snd (env : Env) (handle pw : String) (s : Store) :
    (verifyPassword env handle pw s).2 =
      match s.find? (fun u => u.handle == some handle) with
      | none => s
      | some user =>
        if !(boolTruthy user.isActive) then s
        else if !(strTruthy user.password) then s
        else if !(env.compare pw (user.password.getD "")) then s
        else mapSet s { user with lastLogin := some env.now } := by
  unfold verifyPassword
  cases s.find? (fun u => u.handle == some handle) with
  | none => rfl
  | some user =>
    dsimp only
    split
    · rfl
    · split
      · rfl
      · split
        · rfl
        · split <;> rfl

theorem enableTotp_fst (env : Env) (i secret : String) (s : Store) :
    (enableTotp env i secret s).1 =
      match getById s i with
      | none => .ok false
      | some _ =>
        if env.writeOk then .ok true else .error .persistenceFailure := by
  unfold enableTotp
  cases getById s i with
  | none => rfl
  | some user => dsimp only; split <;> rfl

theorem disableTotp_fst (env : Env) (i : String) (s : Store) :
    (disableTotp env i s).1 =
      match getById s i with
      | none => .ok false
      | some _ =>
        if env.writeOk then .ok true else .error .persistenceFailure := by
  unfold disableTotp
  cases getById s i with
  | none => rfl
  | some user => dsimp only; split <;> rfl

theorem redact_password (u : AdminUser) : (redact u).password = none := rfl

/-- Creation data with an explicit password and no credential request. -/
def daveData : CreateUserData :=
  { username := "dave", role := "admin", password := some "x" }

/-- A partial update touching only the display name. -/
def ud0 : UpdateData := { displayName := some "A2" }

/-- C3: every record returned to a caller by getAllUsers, getUserByHandle,
createUser, updateUser, verifyPassword and toggleUserStatus has the stored
password-hash field absent. -/
theorem C3_redaction (env : Env) (s : Store) (h p i : String)
    (d : CreateUserData) (ud : UpdateData) (r : CreateUserResult)
    (u1 u2 u3 u4 : AdminUser)
    (hb : getUserByHandle s h = some u1)
    (hc : (createUser env d s).1 = .ok r)
    (hu : (updateUser env i ud s).1 = .ok (some u2))
    (hv : (verifyPassword env h p s).1 = .ok (some u3))
    (ht : (toggleUserStatus env i s).1 = .ok (some u4)) :
    (∀ w ∈ getAllUsers s, w.password = none)
    ∧ u1.password = none ∧ r.user.password = none ∧ u2.password = none
    ∧ u3.password = none ∧ u4.password = none := by
  refine ⟨?_, ?_, ?_, ?_, ?_, ?_⟩
  · intro w hw
    obtain ⟨v, _, rfl⟩ := List.mem_map.mp hw
    rfl
  · unfold getUserByHandle at hb
    obtain ⟨v, _, hv2⟩ := Option.map_eq_some'.mp hb
    rw [← hv2]
    rfl
  · rw [createUser_fst] at hc
    split at hc
    · exact absurd hc (by simp)
    · split at hc
      · simp only [Except.ok.injEq] at hc
        rw [← hc]
        rfl
      · exact absurd hc (by simp)
  · rw [updateUser_fst] at hu
    cases hg : getById s i with
    | none => simp [hg] at hu
    | some user =>
      simp only [hg] at hu
      split at hu
      · exact absurd hu (by simp)
      · split at hu
        · simp only [Except.ok.injEq, Option.some.injEq] at hu
          rw [← hu]
          rfl
        · exact absurd hu (by simp)
  · rw [verifyPassword_fst] at hv
    cases hg : s.find? (fun u => u.handle == some h) with
    | none => simp [hg] at hv
    | some user =>
      simp only [hg] at hv
      split at hv
      · simp at hv
      · split at hv
        · simp at hv
        · split at hv
          · simp at hv
          · split at hv
            · simp only [Except.ok.injEq, Option.some.injEq] at hv
              rw [← hv]
              rfl
            · exact absurd hv (by simp)
  · rw [toggleUserStatus_fst] at ht
    cases hg : getById s i with
    | none => simp [hg] at ht
    | some user =>
      simp only [hg] at ht
      split at ht
      · simp only [Except.ok.injEq, Option.some.injEq] at ht
        rw [← ht]
        rfl
      · exact absurd ht (by simp)

/-- Witness for C3 at a concrete store where all six operations return a
record. -/
theorem C3_redaction_witness :
    (∀ w ∈ getAllUsers [alice], w.password = none)
    ∧ (redact alice).password = none
    ∧ ({ user := redact (createdUser testEnv daveData)
         tempPassword := createTempPassword testEnv daveData
         qrCode := createQrCode testEnv daveData
         totpUri := createTotpUri testEnv daveData } :
           CreateUserResult).user.password = none
    ∧ (redact (applyUpdate alice ud0 testEnv.now)).password = none
    ∧ (redact { alice with lastLogin := some testEnv.now }).password = none
    ∧ (redact { alice with
          isActive := some (!(boolTruthy alice.isActive))
          updatedAt := some testEnv.now }).password = none :=
  C3_redaction testEnv [alice] "alice_h" "secret123" "user-1" daveData ud0
    _ (redact alice) (redact (applyUpdate alice ud0 testEnv.now))
    (redact { alice with lastLogin := some testEnv.now })
    (redact { alice with
        isActive := some (!(boolTruthy alice.isActive))
        updatedAt := some testEnv.now })
    rfl rfl rfl rfl rfl

theorem mem_mapSet_strong {s : Store} {u v : AdminUser}
    (h : v ∈ mapSet s u) : (v ∈ s ∧ v.id ≠ u.id) ∨ v = u := by
  unfold mapSet at h
  split at h
  · next hany =>
    obtain ⟨w, hw, hv⟩ := List.mem_map.mp h
    by_cases hid : (w.id == u.id) = true
    · right
      simp only [hid, if_true] at hv
      exact hv.symm
    · left
      simp only [hid, if_false] at hv
      subst hv
      exact ⟨hw, by simpa using hid⟩
  · next hany =>
    rcases List.mem_append.mp h with h1 | h1
    · left
      refine ⟨h1, fun he => hany ?_⟩
      exact List.any_eq_true.mpr ⟨v, h1, by simpa using he⟩
    · exact Or.inr (by simpa using h1)

theorem any_id_beq {s : Store} {u : AdminUser} :
    (s.any fun v => v.id == u.id) = true ↔ u.id ∈ ids s := by
  simp only [List.any_eq_true, beq_iff_eq, ids, List.mem_map]

/-- The ids held by the store are pairwise distinct (always true of a
JavaScript Map; preserved by every operation). -/
def idsNodup (s : Store) : Prop := (ids s).Nodup

instance (s : Store) : Decidable (idsNodup s) := by
  unfold idsNodup; infer_instance

/-- No two distinct records of the store carry the same (present)
username. -/
def usernameUnique (s : Store) : Prop :=
  ∀ u ∈ s, ∀ v ∈ s, u.id ≠ v.id → u.username = v.username →
    u.username = none

instance (s : Store) : Decidable (usernameUnique s) := by
  unfold usernameUnique
  exact List.decidableBAll _ s

theorem idsNodup_mapSet {s : Store} {u : AdminUser} (h : idsNodup s) :
    idsNodup (mapSet s u) := by
  by_cases hm : u.id ∈ ids s
  · unfold idsNodup
    rw [ids_mapSet_of_mem (any_id_beq.mpr hm)]
    exact h
  · unfold idsNodup
    rw [ids_mapSet_of_not_mem hm]
    refine List.Nodup.append h (List.nodup_singleton _) ?_
    intro a ha hb
    rw [List.mem_singleton] at hb
    exact hm (hb ▸ ha)

theorem usernameUnique_mapSet {s : Store} {u : AdminUser}
    (h : usernameUnique s)
    (hu : ∀ v ∈ s, v.id ≠ u.id → v.username = u.username →
            u.username = none) :
    usernameUnique (mapSet s u) := by
  intro x hx y hy hxy hn
  rcases mem_mapSet_strong hx with ⟨hxs, hxid⟩ | rfl
  · rcases mem_mapSet_strong hy with ⟨hys, _⟩ | rfl
    · exact h x hxs y hys hxy hn
    · rw [hn]
      exact hu x hxs hxid hn
  · rcases mem_mapSet_strong hy with ⟨hys, hyid⟩ | rfl
    · exact hu y hys hyid hn.symm
    · exact absurd rfl hxy

/-- One create-or-update operation with its per-call environment. -/
inductive NameOp where
  | create (env : Env) (data : CreateUserData)
  | update (env : Env) (i : String) (d : UpdateData)

/-- The store after one operation. -/
def runNameOp (s : Store) : NameOp → Store
  | .create env data => (createUser env data s).2
  | .update env i d => (updateUser env i d s).2

/-- The side condition the amended claim needs: updates either leave the
username alone or rename to a truthy (non-empty) username. -/
def goodNameOp : NameOp → Prop
  | .create _ _ => True
  | .update _ _ d => d.username = none ∨ strTruthy d.username = true

theorem storeWF_runNameOp {s : Store} {op : NameOp}
    (hg : goodNameOp op) (hn : idsNodup s) (hu : usernameUnique s) :
    idsNodup (runNameOp s op) ∧ usernameUnique (runNameOp s op) := by
  cases op with
  | create env data =>
    show idsNodup (createUser env data s).2
      ∧ usernameUnique (createUser env data s).2
    rw [createUser_snd]
    split
    · exact ⟨hn, hu⟩
    · next hdup =>
      refine ⟨idsNodup_mapSet hn, usernameUnique_mapSet hu ?_⟩
      intro v hv _ hvu
      exfalso
      apply hdup
      refine List.any_eq_true.mpr ⟨v, hv, ?_⟩
      rw [hvu]
      simp [createdUser]
  | update env i d =>
    show idsNodup (updateUser env i d s).2
      ∧ usernameUnique (updateUser env i d s).2
    cases hf : getById s i with
    | none =>
      simp only [updateUser_snd, hf]
      exact ⟨hn, hu⟩
    | some user =>
      simp only [updateUser_snd, hf]
      split
      · exact ⟨hn, hu⟩
      · next hguard =>
        have huser : user ∈ s := List.mem_of_find?_eq_some hf
        refine ⟨idsNodup_mapSet hn, usernameUnique_mapSet hu ?_⟩
        intro v hv hvid hvu
        have hid : (applyUpdate user d env.now).id = user.id := rfl
        rcases hg with hnone | htruthy
        · have husn : (applyUpdate user d env.now).username = user.username := by
            simp [applyUpdate, hnone]
          rw [husn] at hvu ⊢
          have hvn := hu v hv user huser (hid ▸ hvid) hvu
          rw [← hvu]
          exact hvn
        · obtain ⟨n, hn1, _⟩ := strTruthy_eq_true.mp htruthy
          have hupd : (applyUpdate user d env.now).username = some n := by
            simp [applyUpdate, hn1]
          by_cases hsame : (d.username == user.username) = true
          · have husr : user.username = some n := by
              have hbe := eq_of_beq hsame
              rw [← hbe, hn1]
            exfalso
            have hvusr : v.username = user.username := by
              rw [husr, ← hupd]
              exact hvu
            have hnone2 := hu v hv user huser (hid ▸ hvid) hvusr
            rw [hvusr, husr] at hnone2
            exact Option.noConfusion hnone2
          · exfalso
            apply hguard
            have hvn : v.username = some n := by rw [hvu, hupd]
            have hany : (s.any fun w => w.username == d.username) = true :=
              List.any_eq_true.mpr ⟨v, hv, by simp [hvn, hn1]⟩
            have hsame2 : (d.username == user.username) = false := by
              simpa using hsame
            simp [htruthy, hany, hsame2]

/-- C4 counterexample: renaming to the empty-string username bypasses the
duplicate check: with a record whose username is "" already in the store,
updateUser to username "" succeeds (no DuplicateUsername) and the store
ends with two records sharing username "". -/
theorem C4_counterexample :
    ((updateUser testEnv "u2" { username := some "" }
        [{ id := "u1", username := some "" },
         { id := "u2", username := some "x" }]).2.map AdminUser.username
      = [some "", some ""])
    ∧ ((updateUser testEnv "u2" { username := some "" }
        [{ id := "u1", username := some "" },
         { id := "u2", username := some "x" }]).1.toOption.isSome = true)
    ∧ ¬ usernameUnique (updateUser testEnv "u2" { username := some "" }
        [{ id := "u1", username := some "" },
         { id := "u2", username := some "x" }]).2 := by
  refine ⟨by decide, by decide, by decide⟩

/-- C4 (amended): starting from a store with distinct ids in which no two
distinct records share a present username, any sequence of createUser and
updateUser operations preserves both properties, provided every rename
supplies a truthy (non-empty) username — renaming to the empty string
bypasses the duplicate check, as the counterexample shows. Moreover a
colliding create, and a colliding truthy rename, fail with
DuplicateUsername and leave the store unchanged. -/
theorem C4_username_uniqueness_amended (s : Store) (ops : List NameOp)
    (hn : idsNodup s) (hu : usernameUnique s)
    (hops : ∀ op ∈ ops, goodNameOp op) :
    (idsNodup (ops.foldl runNameOp s)
      ∧ usernameUnique (ops.foldl runNameOp s))
    ∧ (∀ env data,
        s.any (fun u => u.username == some data.username) = true →
        createUser env data s = (.error .duplicateUsername, s))
    ∧ (∀ env i d user, getById s i = some user →
        (strTruthy d.username && !(d.username == user.username)
          && s.any (fun v => v.username == d.username)) = true →
        updateUser env i d s = (.error .duplicateUsername, s)) := by
  refine ⟨?_, ?_, ?_⟩
  · induction ops generalizing s with
    | nil => exact ⟨hn, hu⟩
    | cons op rest ih =>
      simp only [List.foldl_cons]
      obtain ⟨hn2, hu2⟩ :=
        storeWF_runNameOp (hops op (List.mem_cons_self _ _)) hn hu
      exact ih _ hn2 hu2 (fun o ho => hops o (List.mem_cons_of_mem _ ho))
  · intro env data hdup
    unfold createUser
    rw [if_pos hdup]
  · intro env i d user hf hguard
    have h1 : (updateUser env i d s).1 = .error .duplicateUsername := by
      rw [updateUser_fst]
      simp only [hf]
      rw [if_pos hguard]
    have h2 : (updateUser env i d s).2 = s := by
      rw [updateUser_snd]
      simp only [hf]
      rw [if_pos hguard]
    exact Prod.ext h1 h2

/-- Witness for the amended C4 theorem at a concrete store, one create and
one truthy rename. -/
theorem C4_username_uniqueness_amended_witness :
    (idsNodup ([NameOp.create testEnv daveData,
                NameOp.update testEnv "user-2" { username := some "bobby" }
               ].foldl runNameOp [alice, bob])
      ∧ usernameUnique ([NameOp.create testEnv daveData,
                NameOp.update testEnv "user-2" { username := some "bobby" }
               ].foldl runNameOp [alice, bob]))
    ∧ (∀ env data,
        ([alice, bob].any (fun u => u.username == some data.username))
          = true →
        createUser env data [alice, bob] =
          (.error .duplicateUsername, [alice, bob]))
    ∧ (∀ env i d user, getById [alice, bob] i = some user →
        (strTruthy d.username && !(d.username == user.username)
          && [alice, bob].any (fun v => v.username == d.username)) = true →
        updateUser env i d [alice, bob] =
          (.error .duplicateUsername, [alice, bob])) :=
  C4_username_uniqueness_amended [alice, bob]
    [NameOp.create testEnv daveData,
     NameOp.update testEnv "user-2" { username := some "bobby" }]
    (by decide) (by decide)
    (by intro op hop
        rcases List.mem_cons.mp hop with rfl | hop2
        · trivial
        · rcases List.mem_cons.mp hop2 with rfl | hop3
          · exact Or.inr (by decide)
          · exact absurd hop3 (List.not_mem_nil op))

/-- C5: the four verifyPassword failure causes — unknown handle, inactive
record, no stored hash, comparison mismatch — all yield the identical
result (.ok none) and leave the store untouched: no exception is raised,
lastLogin is not written, nothing is saved, and the causes are
indistinguishable to the caller. -/
theorem C5_verify_fail_closed (env : Env) (handle pw : String) (s : Store) :
    (s.find? (fun u => u.handle == some handle) = none →
      verifyPassword env handle pw s = (.ok none, s))
    ∧ (∀ user, s.find? (fun u => u.handle == some handle) = some user →
        boolTruthy user.isActive = false →
        verifyPassword env handle pw s = (.ok none, s))
    ∧ (∀ user, s.find? (fun u => u.handle == some handle) = some user →
        strTruthy user.password = false →
        verifyPassword env handle pw s = (.ok none, s))
    ∧ (∀ user, s.find? (fun u => u.handle == some handle) = some user →
        env.compare pw (user.password.getD "") = false →
        verifyPassword env handle pw s = (.ok none, s)) := by
  refine ⟨?_, ?_, ?_, ?_⟩
  · intro hfind
    simp [verifyPassword, hfind]
  · intro user hfind hact
    simp [verifyPassword, hfind, hact]
  · intro user hfind hpw
    by_cases hact : boolTruthy user.isActive
    · simp [verifyPassword, hfind, hact, hpw]
    · simp [verifyPassword, hfind, hact]
  · intro user hfind hcmp
    by_cases hact : boolTruthy user.isActive
    · by_cases hpw : strTruthy user.password
      · simp [verifyPassword, hfind, hact, hpw, hcmp]
      · simp [verifyPassword, hfind, hact, hpw]
    · simp [verifyPassword, hfind, hact]

/-- Witness for C5 at a concrete store: alice is present and active with a
stored hash, and the supplied password mismatches. -/
theorem C5_verify_fail_closed_witness :
    (([alice].find? (fun u => u.handle == some "alice_h")) = none →
      verifyPassword testEnv "alice_h" "wrong" [alice] = (.ok none, [alice]))
    ∧ (∀ user,
        ([alice].find? (fun u => u.handle == some "alice_h")) = some user →
        boolTruthy user.isActive = false →
        verifyPassword testEnv "alice_h" "wrong" [alice] =
          (.ok none, [alice]))
    ∧ (∀ user,
        ([alice].find? (fun u => u.handle == some "alice_h")) = some user →
        strTruthy user.password = false →
        verifyPassword testEnv "alice_h" "wrong" [alice] =
          (.ok none, [alice]))
    ∧ (∀ user,
        ([alice].find? (fun u => u.handle == some "alice_h")) = some user →
        testEnv.compare "wrong" (user.password.getD "") = false →
        verifyPassword testEnv "alice_h" "wrong" [alice] =
          (.ok none, [alice])) :=
  C5_verify_fail_closed testEnv "alice_h" "wrong" [alice]

/-- The concrete environment whose injected write function fails. -/
def failEnv : Env := { testEnv with writeOk := false }

/-- C6: when the backing-file write fails, every mutating operation
surfaces PersistenceFailure — an error distinct from the business-logic
DuplicateUsername — while the in-memory map keeps the already-applied
mutation: the resulting map equals the one produced by the same call with
a succeeding write. -/
theorem C6_persistence_failure (env : Env) (s : Store)
    (hw : env.writeOk = false) :
    UserError.persistenceFailure ≠ UserError.duplicateUsername
    ∧ (∀ data,
        (s.any (fun u => u.username == some data.username)) = false →
        (createUser env data s).1 = .error .persistenceFailure
        ∧ (createUser env data s).2 =
            (createUser { env with writeOk := true } data s).2)
    ∧ (∀ i d user, getById s i = some user →
        (strTruthy d.username && !(d.username == user.username)
          && s.any (fun v => v.username == d.username)) = false →
        (updateUser env i d s).1 = .error .persistenceFailure
        ∧ (updateUser env i d s).2 =
            (updateUser { env with writeOk := true } i d s).2)
    ∧ (∀ i p user, getById s i = some user →
        (updatePassword env i p s).1 = .error .persistenceFailure
        ∧ (updatePassword env i p s).2 =
            (updatePassword { env with writeOk := true } i p s).2)
    ∧ (∀ i, (s.any (fun u => u.id == i)) = true →
        (deleteUser env i s).1 = .error .persistenceFailure
        ∧ (deleteUser env i s).2 =
            (deleteUser { env with writeOk := true } i s).2)
    ∧ (∀ i user, getById s i = some user →
        (toggleUserStatus env i s).1 = .error .persistenceFailure
        ∧ (toggleUserStatus env i s).2 =
            (toggleUserStatus { env with writeOk := true } i s).2)
    ∧ (∀ handle pw user,
        s.find? (fun u => u.handle == some handle) = some user →
        boolTruthy user.isActive = true → strTruthy user.password = true →
        env.compare pw (user.password.getD "") = true →
        (verifyPassword env handle pw s).1 = .error .persistenceFailure
        ∧ (verifyPassword env handle pw s).2 =
            (verifyPassword { env with writeOk := true } handle pw s).2)
    ∧ (∀ i sec user, getById s i = some user →
        (enableTotp env i sec s).1 = .error .persistenceFailure
        ∧ (enableTotp env i sec s).2 =
            (enableTotp { env with writeOk := true } i sec s).2)
    ∧ (∀ i user, getById s i = some user →
        (disableTotp env i s).1 = .error .persistenceFailure
        ∧ (disableTotp env i s).2 =
            (disableTotp { env with writeOk := true } i s).2) := by
  refine ⟨by simp, ?_, ?_, ?_, ?_, ?_, ?_, ?_, ?_⟩
  · intro data hdup
    exact ⟨by simp [createUser_fst, hdup, hw], by
      rw [createUser_snd, createUser_snd]; rfl⟩
  · intro i d user hf hguard
    exact ⟨by simp [updateUser_fst, hf, hguard, hw], by
      rw [updateUser_snd, updateUser_snd, hf]⟩
  · intro i p user hf
    exact ⟨by simp [updatePassword_fst, hf, hw], by
      rw [updatePassword_snd, updatePassword_snd, hf]⟩
  · intro i hdel
    exact ⟨by simp [deleteUser_fst, hdel, hw], by
      rw [deleteUser_snd, deleteUser_snd]⟩
  · intro i user hf
    exact ⟨by simp [toggleUserStatus_fst, hf, hw], by
      rw [toggleUserStatus_snd, toggleUserStatus_snd, hf]⟩
  · intro handle pw user hfind hact hpw hcmp
    exact ⟨by simp [verifyPassword_fst, hfind, hact, hpw, hcmp, hw], by
      rw [verifyPassword_snd, verifyPassword_snd, hfind]⟩
  · intro i sec user hf
    exact ⟨by simp [enableTotp_fst, hf, hw], by
      rw [enableTotp_snd, enableTotp_snd, hf]⟩
  · intro i user hf
    exact ⟨by simp [disableTotp_fst, hf, hw], by
      rw [disableTotp_snd, disableTotp_snd, hf]⟩

/-- Witness for C6 with the failing-write environment over a two-record
store. -/
theorem C6_persistence_failure_witness :
    UserError.persistenceFailure ≠ UserError.duplicateUsername
    ∧ (∀ data,
        ([alice, bob].any (fun u => u.username == some data.username))
          = false →
        (createUser failEnv data [alice, bob]).1 =
          .error .persistenceFailure
        ∧ (createUser failEnv data [alice, bob]).2 =
            (createUser { failEnv with writeOk := true } data
              [alice, bob]).2)
    ∧ (∀ i d user, getById [alice, bob] i = some user →
        (strTruthy d.username && !(d.username == user.username)
          && [alice, bob].any (fun v => v.username == d.username))
            = false →
        (updateUser failEnv i d [alice, bob]).1 =
          .error .persistenceFailure
        ∧ (updateUser failEnv i d [alice, bob]).2 =
            (updateUser { failEnv with writeOk := true } i d
              [alice, bob]).2)
    ∧ (∀ i p user, getById [alice, bob] i = some user →
        (updatePassword failEnv i p [alice, bob]).1 =
          .error .persistenceFailure
        ∧ (updatePassword failEnv i p [alice, bob]).2 =
            (updatePassword { failEnv with writeOk := true } i p
              [alice, bob]).2)
    ∧ (∀ i, ([alice, bob].any (fun u => u.id == i)) = true →
        (deleteUser failEnv i [alice, bob]).1 =
          .error .persistenceFailure
        ∧ (deleteUser failEnv i [alice, bob]).2 =
            (deleteUser { failEnv with writeOk := true } i
              [alice, bob]).2)
    ∧ (∀ i user, getById [alice, bob] i = some user →
        (toggleUserStatus failEnv i [alice, bob]).1 =
          .error .persistenceFailure
        ∧ (toggleUserStatus failEnv i [alice, bob]).2 =
            (toggleUserStatus { failEnv with writeOk := true } i
              [alice, bob]).2)
    ∧ (∀ handle pw user,
        [alice, bob].find? (fun u => u.handle == some handle)
          = some user →
        boolTruthy user.isActive = true → strTruthy user.password = true →
        failEnv.compare pw (user.password.getD "") = true →
        (verifyPassword failEnv handle pw [alice, bob]).1 =
          .error .persistenceFailure
        ∧ (verifyPassword failEnv handle pw [alice, bob]).2 =
            (verifyPassword { failEnv with writeOk := true } handle pw
              [alice, bob]).2)
    ∧ (∀ i sec user, getById [alice, bob] i = some user →
        (enableTotp failEnv i sec [alice, bob]).1 =
          .error .persistenceFailure
        ∧ (enableTotp failEnv i sec [alice, bob]).2 =
            (enableTotp { failEnv with writeOk := true } i sec
              [alice, bob]).2)
    ∧ (∀ i user, getById [alice, bob] i = some user →
        (disableTotp failEnv i [alice, bob]).1 =
          .error .persistenceFailure
        ∧ (disableTotp failEnv i [alice, bob]).2 =
            (disableTotp { failEnv with writeOk := true } i
              [alice, bob]).2) :=
  C6_persistence_failure failEnv [alice, bob] rfl

/-- C7: toggleUserStatus on an existing record stores and returns the
record with isActive set to the boolean negation of its current value
(an absent flag reads as false, so the first toggle on such a record
yields some true), with updatedAt refreshed and the password stripped
from the returned copy; a missing id yields null with the store
unchanged. -/
theorem C7_toggle_status (env : Env) (i : String) (s : Store)
    (hw : env.writeOk = true) :
    (getById s i = none → toggleUserStatus env i s = (.ok none, s))
    ∧ (∀ user, getById s i = some user →
        toggleUserStatus env i s =
          (.ok (some (redact { user with
              isActive := some (!(boolTruthy user.isActive))
              updatedAt := some env.now })),
           mapSet s { user with
              isActive := some (!(boolTruthy user.isActive))
              updatedAt := some env.now }))
    ∧ (∀ user, getById s i = some user → user.isActive = none →
        ((toggleUserStatus env i s).1.toOption.getD none).map
          AdminUser.isActive = some (some true)) := by
  refine ⟨?_, ?_, ?_⟩
  · intro hf
    simp [toggleUserStatus, hf]
  · intro user hf
    have h1 := toggleUserStatus_fst env i s
    have h2 := toggleUserStatus_snd env i s
    rw [hf] at h1 h2
    simp only [hw, if_true] at h1
    exact Prod.ext h1 h2
  · intro user hf hact
    have h1 := toggleUserStatus_fst env i s
    rw [hf] at h1
    simp only [hw, if_true] at h1
    rw [h1]
    simp [Except.toOption, redact, hact, boolTruthy]

/-- A legacy record lacking the isActive field entirely. -/
def legacyUser : AdminUser :=
  { id := "u9", username := some "leg", handle := some "leg_h",
    password := some "h_pw" }

/-- Witness for C7 on a record lacking isActive: the first toggle stores
isActive = some true. -/
theorem C7_toggle_status_witness :
    (getById [legacyUser] "u9" = none →
      toggleUserStatus testEnv "u9" [legacyUser] = (.ok none, [legacyUser]))
    ∧ (∀ user, getById [legacyUser] "u9" = some user →
        toggleUserStatus testEnv "u9" [legacyUser] =
          (.ok (some (redact { user with
              isActive := some (!(boolTruthy user.isActive))
              updatedAt := some testEnv.now })),
           mapSet [legacyUser] { user with
              isActive := some (!(boolTruthy user.isActive))
              updatedAt := some testEnv.now }))
    ∧ (∀ user, getById [legacyUser] "u9" = some user →
        user.isActive = none →
        ((toggleUserStatus testEnv "u9" [legacyUser]).1.toOption.getD
            none).map AdminUser.isActive = some (some true)) :=
  C7_toggle_status testEnv "u9" [legacyUser] rfl

/-- C10: a record whose isActive field is absent is treated as inactive by
verifyPassword: the call returns the invalid result with the store
untouched (no lastLogin update), whatever the supplied plaintext and the
comparison function say. -/
theorem C10_verify_absent_isActive (env : Env) (handle pw : String)
    (s : Store) (user : AdminUser)
    (hfind : s.find? (fun u => u.handle == some handle) = some user)
    (hact : user.isActive = none) :
    verifyPassword env handle pw s = (.ok none, s) := by
  simp [verifyPassword, hfind, hact, boolTruthy]

/-- Witness for C10: legacyUser's stored hash matches the supplied
password under testEnv's comparison, yet verification still fails because
isActive is absent. -/
theorem C10_verify_absent_isActive_witness :
    verifyPassword testEnv "leg_h" "pw" [legacyUser] =
      (.ok none, [legacyUser])
    ∧ testEnv.compare "pw" "h_pw" = true :=
  ⟨C10_verify_absent_isActive testEnv "leg_h" "pw" [legacyUser]
      legacyUser rfl rfl,
   by decide⟩

theorem normalizeUser_id (u : AdminUser) : (normalizeUser u).id = u.id := by
  unfold normalizeUser
  dsimp only
  split <;> split <;> rfl

theorem foldl_mapSet_norm (l : List AdminUser) (init : Store)
    (hd : (ids init ++ ids l).Nodup) :
    l.foldl (fun t u => mapSet t (normalizeUser u)) init
      = init ++ l.map normalizeUser := by
  induction l generalizing init with
  | nil => simp
  | cons a as ih =>
    simp only [List.foldl_cons, List.map_cons]
    have hids : ids (a :: as) = a.id :: ids as := rfl
    rw [hids] at hd
    have hdisj := List.disjoint_of_nodup_append hd
    have hna : (normalizeUser a).id ∉ ids init := by
      rw [normalizeUser_id]
      intro hmem
      exact hdisj hmem (List.mem_cons_self _ _)
    rw [mapSet_append hna]
    have hd2 : (ids (init ++ [normalizeUser a]) ++ ids as).Nodup := by
      have : ids (init ++ [normalizeUser a]) = ids init ++ [a.id] := by
        simp [ids, normalizeUser_id]
      rw [this, List.append_assoc]
      simpa using hd
    rw [ih (init ++ [normalizeUser a]) hd2]
    simp

/-- C8: persisting the store's mapping and loading the written content
into a fresh store yields the same records up to the legacy-field
normalization applied on load; when every persisted record is already in
normal form the round trip reproduces the store exactly. -/
theorem C8_round_trip (s : Store) (hnd : idsNodup s) :
    loadUsers (saveUsers s) = s.map normalizeUser
    ∧ ((∀ u ∈ s, normalizeUser u = u) → loadUsers (saveUsers s) = s) := by
  have hmain : loadUsers (saveUsers s) = s.map normalizeUser := by
    show s.foldl (fun t u => mapSet t (normalizeUser u)) [] =
      s.map normalizeUser
    have := foldl_mapSet_norm s [] (by simpa [ids] using hnd)
    simpa using this
  refine ⟨hmain, fun hnorm => ?_⟩
  rw [hmain]
  calc s.map normalizeUser = s.map id := List.map_congr_left hnorm
    _ = s := List.map_id s

/-- Witness for C8 on the two-record store. -/
theorem C8_round_trip_witness :
    loadUsers (saveUsers [alice, bob]) = [alice, bob].map normalizeUser
    ∧ ((∀ u ∈ [alice, bob], normalizeUser u = u) →
        loadUsers (saveUsers [alice, bob]) = [alice, bob]) :=
  C8_round_trip [alice, bob] (by decide)

/-- C9: createUser with an empty-string password and no credential
request behaves exactly as with no password at all — identical result and
store — with the length-12 generator output returned as the temporary
password and its hash stored, and firstLogin defaulting to true when not
explicitly supplied. -/
theorem C9_empty_password (env : Env) (data : CreateUserData) (s : Store)
    (hp : data.password = some "")
    (hg : data.generateCredentials = none) :
    createUser env data s = createUser env { data with password := none } s
    ∧ createTempPassword env data = some (env.genTempPassword 12)
    ∧ (createdUser env data).password =
        some (env.hash (env.genTempPassword 12))
    ∧ (data.firstLogin = none →
        (createdUser env data).firstLogin = some true) := by
  have hst : strTruthy data.password = false := by rw [hp]; rfl
  refine ⟨?_, ?_, ?_, ?_⟩
  · simp [createUser, createdUser, createTempPassword, createPasswordToHash,
      createTotpSecret, createTotpUri, createQrCode, hp, strTruthy]
  · unfold createTempPassword
    simp [hst, hg, boolTruthy]
  · unfold createdUser createPasswordToHash createTempPassword
    simp [hst, hg, boolTruthy]
  · intro hfl
    unfold createdUser
    simp [hfl, hst]

/-- Creation data carrying an explicit empty-string password. -/
def erinData : CreateUserData :=
  { username := "erin", role := "admin", password := some "" }

/-- Witness for C9 at concrete creation data with password "". -/
theorem C9_empty_password_witness :
    createUser testEnv erinData [] =
      createUser testEnv { erinData with password := none } []
    ∧ createTempPassword testEnv erinData =
        some (testEnv.genTempPassword 12)
    ∧ (createdUser testEnv erinData).password =
        some (testEnv.hash (testEnv.genTempPassword 12))
    ∧ (erinData.firstLogin = none →
        (createdUser testEnv erinData).firstLogin = some true) :=
  C9_empty_password testEnv erinData [] rfl rfl

end AdminUserService
